import Mathlib

/-!
Verification development for the egypt-voter-api repository.

The embedding models the two source files `selenium_scraper.py` and `api.py`
as pure Lean functions over lists of characters.  Strings are modelled as
`List Char`; Python dictionaries with fixed key sets become structures;
fallible operations return explicit result types.  The browser driver is an
external collaborator: each retry attempt's interaction with it is summarised
by an `AttemptEvent` oracle, and the text-only semantics of the extraction
regexes is implemented directly.
-/

namespace EgyptVoterApi

/-! ## Basic string utilities (models of Python string operations) -/

/-- Model of the whitespace characters recognised by Python `str.strip()` and
by the regex class backslash-s, restricted to the ASCII whitespace characters
that occur in this domain. -/
def pySpace (c : Char) : Bool :=
  c = ' ' || c = '\t' || c = '\n' || c = '\x0d' || c = '\x0b' || c = '\x0c'

/-- Model of Python `str.strip()`: drop whitespace from both ends. -/
def pyStrip (l : List Char) : List Char :=
  ((l.dropWhile pySpace).reverse.dropWhile pySpace).reverse

/-- `isPrefOf p l` holds when `p` is a prefix of `l`. -/
def isPrefOf : List Char → List Char → Bool
  | [], _ => true
  | _ :: _, [] => false
  | a :: as, b :: bs => a = b && isPrefOf as bs

/-- Model of the Python `in` operator on strings: `hasNeedle l pat` is true
when `pat` occurs as a contiguous substring of `l`. -/
def hasNeedle : List Char → List Char → Bool
  | [], pat => pat.isEmpty
  | a :: rest, pat => isPrefOf pat (a :: rest) || hasNeedle rest pat

/-- Model of Python `str.lower()` on the ASCII error messages used by the
scraper (Arabic text has no case). -/
def lowerL (l : List Char) : List Char := l.map Char.toLower

theorem isPrefOf_refl (l : List Char) : isPrefOf l l = true := by
  induction l with
  | nil => rfl
  | cons a as ih => simp [isPrefOf, ih]

theorem isPrefOf_append (p r : List Char) : isPrefOf p (p ++ r) = true := by
  induction p with
  | nil => rfl
  | cons a as ih => simp [isPrefOf, ih]

theorem hasNeedle_of_isPrefOf :
    ∀ (t p : List Char), isPrefOf p t = true → hasNeedle t p = true
  | [], p, h => by
    cases p with
    | nil => rfl
    | cons a as => simp [isPrefOf] at h
  | a :: rest, p, h => by simp [hasNeedle, h]

theorem hasNeedle_append_left (x t p : List Char) (h : hasNeedle t p = true) :
    hasNeedle (x ++ t) p = true := by
  induction x with
  | nil => exact h
  | cons c cs ih => simp [hasNeedle, ih]

theorem hasNeedle_middle (a b c : List Char) : hasNeedle (a ++ b ++ c) b = true := by
  rw [List.append_assoc]
  exact hasNeedle_append_left a (b ++ c) b
    (hasNeedle_of_isPrefOf (b ++ c) b (isPrefOf_append b c))

/-- Model of a Python Unicode decimal digit (category Nd) as matched by the
regex class backslash-d and accepted by `str.isdigit`, restricted to the
scripts that occur in this domain: ASCII digits, Arabic-Indic digits
(U+0660 to U+0669) and Extended Arabic-Indic digits (U+06F0 to U+06F9). -/
def pyIsDigitChar (c : Char) : Bool :=
  c.isDigit || (0x660 ≤ c.toNat && c.toNat ≤ 0x669) ||
    (0x6F0 ≤ c.toNat && c.toNat ≤ 0x6F9)

/-- Model of Python `str.isdigit()`: nonempty and every character a digit. -/
def pyStrIsdigit (l : List Char) : Bool :=
  !l.isEmpty && l.all pyIsDigitChar

/-! ## NumeralNormalizer: `convert_arabic_numerals` (selenium_scraper.py 549-558) -/

/-- The `arabic_to_english` replacement table of `convert_arabic_numerals`,
in the insertion order of the Python dict literal. -/
def arabic_to_english : List (Char × Char) :=
  [('٠', '0'), ('١', '1'), ('٢', '2'), ('٣', '3'), ('٤', '4'),
   ('٥', '5'), ('٦', '6'), ('٧', '7'), ('٨', '8'), ('٩', '9')]

/-- Model of `str.replace(old, new)` for a single-character pattern and a
single-character replacement: replace every occurrence character-wise. -/
def replaceChar (a b : Char) (l : List Char) : List Char :=
  l.map (fun c => if c = a then b else c)

/-- `convert_arabic_numerals`: fold the replacement table over the input,
replacing each Arabic-Indic digit glyph by its ASCII counterpart. -/
def convert_arabic_numerals (text : List Char) : List Char :=
  arabic_to_english.foldl (fun acc p => replaceChar p.1 p.2 acc) text

/-- Pointwise digit-glyph normalisation: the character-level effect of the
replacement table. -/
def normalizeDigitChar (c : Char) : Char :=
  match arabic_to_english.find? (fun p => c = p.1) with
  | some p => p.2
  | none => c

/-- The character-level fold corresponding to running every replacement of
the table on a single character. -/
def charFoldAll (c : Char) : Char :=
  arabic_to_english.foldl (fun a p => if a = p.1 then p.2 else a) c

theorem foldl_replaceChar_cons (ps : List (Char × Char)) (c : Char) (l : List Char) :
    ps.foldl (fun acc p => replaceChar p.1 p.2 acc) (c :: l)
      = ps.foldl (fun a p => if a = p.1 then p.2 else a) c
        :: ps.foldl (fun acc p => replaceChar p.1 p.2 acc) l := by
  induction ps generalizing c l with
  | nil => rfl
  | cons p ps ih =>
    show ps.foldl _ (replaceChar p.1 p.2 (c :: l)) = _
    rw [show replaceChar p.1 p.2 (c :: l)
          = (if c = p.1 then p.2 else c) :: replaceChar p.1 p.2 l from rfl]
    rw [List.foldl_cons, List.foldl_cons, ih]

theorem charFoldAll_eq (c : Char) : charFoldAll c = normalizeDigitChar c := by
  by_cases h0 : c = '٠'
  · subst h0; decide
  by_cases h1 : c = '١'
  · subst h1; decide
  by_cases h2 : c = '٢'
  · subst h2; decide
  by_cases h3 : c = '٣'
  · subst h3; decide
  by_cases h4 : c = '٤'
  · subst h4; decide
  by_cases h5 : c = '٥'
  · subst h5; decide
  by_cases h6 : c = '٦'
  · subst h6; decide
  by_cases h7 : c = '٧'
  · subst h7; decide
  by_cases h8 : c = '٨'
  · subst h8; decide
  by_cases h9 : c = '٩'
  · subst h9; decide
  simp [charFoldAll, normalizeDigitChar, arabic_to_english, List.foldl, List.find?,
    h0, h1, h2, h3, h4, h5, h6, h7, h8, h9]

theorem convert_eq_map (l : List Char) :
    convert_arabic_numerals l = l.map normalizeDigitChar := by
  induction l with
  | nil => rfl
  | cons c l ih =>
    rw [show convert_arabic_numerals (c :: l)
          = charFoldAll c :: convert_arabic_numerals l from
        foldl_replaceChar_cons arabic_to_english c l]
    rw [ih, charFoldAll_eq, List.map_cons]

theorem normalizeDigitChar_eq_self (c : Char)
    (h : c ∉ arabic_to_english.map Prod.fst) : normalizeDigitChar c = c := by
  have hn : arabic_to_english.find? (fun p => c = p.1) = none := by
    rw [List.find?_eq_none]
    intro x hx
    simp only [decide_eq_true_eq]
    intro he
    exact h (List.mem_map.mpr ⟨x, hx, he.symm⟩)
  simp [normalizeDigitChar, hn]

theorem normalizeDigitChar_idem (c : Char) :
    normalizeDigitChar (normalizeDigitChar c) = normalizeDigitChar c := by
  by_cases h0 : c = '٠'
  · subst h0; decide
  by_cases h1 : c = '١'
  · subst h1; decide
  by_cases h2 : c = '٢'
  · subst h2; decide
  by_cases h3 : c = '٣'
  · subst h3; decide
  by_cases h4 : c = '٤'
  · subst h4; decide
  by_cases h5 : c = '٥'
  · subst h5; decide
  by_cases h6 : c = '٦'
  · subst h6; decide
  by_cases h7 : c = '٧'
  · subst h7; decide
  by_cases h8 : c = '٨'
  · subst h8; decide
  by_cases h9 : c = '٩'
  · subst h9; decide
  have hs : normalizeDigitChar c = c := by
    apply normalizeDigitChar_eq_self
    simp [arabic_to_english, h0, h1, h2, h3, h4, h5, h6, h7, h8, h9]
  rw [hs, hs]

/-- C10: the numeral normalizer is pure and total, replaces each of the ten
Arabic-Indic digit glyphs 1:1 by the corresponding ASCII digit and leaves
every other character unchanged; on glyph-free input it is the identity, and
it is idempotent. -/
theorem convert_arabic_numerals_spec :
    (∀ l : List Char, convert_arabic_numerals l = l.map normalizeDigitChar) ∧
    (∀ l : List Char, (∀ c ∈ l, c ∉ arabic_to_english.map Prod.fst) →
      convert_arabic_numerals l = l) ∧
    (∀ l : List Char,
      convert_arabic_numerals (convert_arabic_numerals l) = convert_arabic_numerals l) := by
  refine ⟨convert_eq_map, ?_, ?_⟩
  · intro l h
    rw [convert_eq_map]
    calc l.map normalizeDigitChar = l.map id := by
          apply List.map_congr_left
          intro c hc
          exact normalizeDigitChar_eq_self c (h c hc)
      _ = l := List.map_id l
  · intro l
    rw [convert_eq_map, convert_eq_map, List.map_map]
    apply List.map_congr_left
    intro c _
    exact normalizeDigitChar_idem c

/-- C10 witness: normalising already-ASCII text is a no-op. -/
theorem convert_arabic_numerals_spec_witness :
    convert_arabic_numerals ("abc123".toList) = "abc123".toList :=
  convert_arabic_numerals_spec.2.1 ("abc123".toList) (by decide)

/-! ## FieldExtractor: `extract_result_data` fallback regexes
(selenium_scraper.py 287-547)

With the browser driver treated as external, every structural (XPath)
strategy falls through to its textual fallback, so the text-only semantics of
extraction is that of the label-anchored regexes run against the full page
text.  All five patterns have the shape
label, then one or more colon/whitespace characters, then a captured
greedy run of non-newline characters; `matchAfterLabel` implements the
greedy-with-backtracking semantics of that tail and `searchLabelCapture`
the left-to-right scan of `re.search`. -/

/-- The separator character class of the extraction patterns: a colon or a
whitespace character. -/
def sepClass (c : Char) : Bool := c = ':' || pySpace c

/-- Last character of a list that is not a newline, if any. -/
def lastNonNewline : List Char → Option Char
  | [] => none
  | c :: rest =>
    match lastNonNewline rest with
    | some d => some d
    | none => if c = '\n' then none else some c

/-- Greedy match of the separator-plus-capture tail of an extraction pattern
against the text following a label occurrence.  The separator run is taken
maximally; if it reaches the end of the text the engine backtracks, so the
capture becomes the last non-newline character inside the run (excluding its
first character, which must remain in the separator part). -/
def matchAfterLabel (rest : List Char) : Option (List Char) :=
  let run := rest.takeWhile sepClass
  if run.isEmpty then none
  else
    match rest.drop run.length with
    | [] => (lastNonNewline (run.drop 1)).map (fun c => [c])
    | c :: cs => some ((c :: cs).takeWhile (fun d => d ≠ '\n'))

/-- Left-to-right scan of `re.search`: the first position where the label
occurs and the separator/capture tail matches wins. -/
def searchLabelCapture (label : List Char) : List Char → Option (List Char)
  | [] => none
  | c :: rest =>
    if isPrefOf label (c :: rest) then
      match matchAfterLabel ((c :: rest).drop label.length) with
      | some cap => some cap
      | none => searchLabelCapture label rest
    else searchLabelCapture label rest

/-- Semantics of `re.search` for one-or-more decimal digits: the first
maximal run of digit characters, if any. -/
def firstDigitRun : List Char → Option (List Char)
  | [] => none
  | c :: rest =>
    if pyIsDigitChar c then some ((c :: rest).takeWhile pyIsDigitChar)
    else firstDigitRun rest

/-- A plain text field: captured group stripped of whitespace, empty when the
pattern does not match. -/
def textFieldValue (label text : List Char) : List Char :=
  match searchLabelCapture label text with
  | some cap => pyStrip cap
  | none => []

/-- A numeric field: captured group stripped, Arabic-Indic numerals
normalised, then the first digit run; empty when absent. -/
def numFieldValue (label text : List Char) : List Char :=
  match searchLabelCapture label text with
  | none => []
  | some cap =>
    match firstDigitRun (convert_arabic_numerals (pyStrip cap)) with
    | some run => run
    | none => []

/-- Label of the electoral-center field. -/
def electoralCenterLabel : List Char := "مركزك الإنتخابي".toList

/-- Label of the district field. -/
def districtLabel : List Char := "قسم".toList

/-- Label of the address field. -/
def addressLabel : List Char := "العنوان".toList

/-- Label of the subcommittee-number field. -/
def subcommitteeLabel : List Char := "رقم اللجنة الفرعية".toList

/-- Label of the electoral-list-number field. -/
def electoralListLabel : List Char := "رقمك في الكشوف الانتخابية".toList

/-- The five-field record populated by extraction (the `data` dict of
`extract_result_data` in the registered case). -/
structure VoterRecord where
  electoral_center : List Char
  district : List Char
  address : List Char
  subcommittee_number : List Char
  electoral_list_number : List Char
deriving DecidableEq, Repr

/-- Full extraction of the five fields from the page text. -/
def extract_fields (text : List Char) : VoterRecord :=
  { electoral_center := textFieldValue electoralCenterLabel text
    district := textFieldValue districtLabel text
    address := textFieldValue addressLabel text
    subcommittee_number := numFieldValue subcommitteeLabel text
    electoral_list_number := numFieldValue electoralListLabel text }

/-! ## OutcomeClassifier: `extract_result_data` (selenium_scraper.py 287-347) -/

/-- The fixed underage terminal phrase. -/
def underagePhrase : List Char := "عفوا, غير مسموح لإقل من 18 سنة بالإنتخاب".toList

/-- The fixed not-registered terminal phrase. -/
def notRegisteredPhrase : List Char :=
  "الرقم القومي غير مدرج بقاعدة بيانات الناخبين".toList

/-- Error message when the body text cannot be read. -/
def readFailMsg : List Char := "Failed to read page content".toList

/-- Error message for an empty or implausibly short page. -/
def emptyPageMsg : List Char := "Page content is empty or incomplete".toList

/-- The `data` payload of a successful `extract_result_data` call. -/
inductive ExtractData where
  | underage (error_message : List Char)
  | not_registered (error_message : List Char)
  | registered (record : VoterRecord)
deriving DecidableEq, Repr

/-- The dictionary returned by `extract_result_data`: success with a data
payload, or failure with an error message. -/
inductive ExtractResult where
  | success (data : ExtractData)
  | failure (error : List Char)
deriving DecidableEq, Repr

/-- `extract_result_data`: classify the page text (read by the driver and
passed here as `none` when the body read failed). Empty or short pages fail;
the two terminal phrases are checked in order; otherwise field extraction
produces a registered record. -/
def extract_result_data (body : Option (List Char)) : ExtractResult :=
  match body with
  | none => .failure readFailMsg
  | some page_text =>
    if page_text = [] ∨ (pyStrip page_text).length < 10 then .failure emptyPageMsg
    else if hasNeedle page_text underagePhrase then .success (.underage underagePhrase)
    else if hasNeedle page_text notRegisteredPhrase then
      .success (.not_registered notRegisteredPhrase)
    else .success (.registered (extract_fields page_text))

/-- C5 counterexample: a page of twelve blanks has raw length at least the
threshold and contains neither terminal phrase, yet the classifier returns
the empty-page failure instead of delegating to field extraction, because
the code measures the whitespace-stripped length. -/
theorem classifier_whitespace_page_counterexample :
    10 ≤ (List.replicate 12 ' ').length ∧
    hasNeedle (List.replicate 12 ' ') underagePhrase = false ∧
    hasNeedle (List.replicate 12 ' ') notRegisteredPhrase = false ∧
    extract_result_data (some (List.replicate 12 ' ')) = .failure emptyPageMsg := by
  decide

/-- C5 (amended): for every page text whose whitespace-stripped length is at
least 10, the underage phrase forces the Underage outcome, otherwise the
not-registered phrase forces NotRegistered, otherwise the classifier
delegates to field extraction and returns Registered with the extracted
record; a page whose stripped length is below 10 yields the empty-page
failure, and an unreadable page yields the read-failure message. -/
theorem extract_result_data_classification (p : List Char) :
    (10 ≤ (pyStrip p).length → hasNeedle p underagePhrase = true →
      extract_result_data (some p) = .success (.underage underagePhrase)) ∧
    (10 ≤ (pyStrip p).length → hasNeedle p underagePhrase = false →
      hasNeedle p notRegisteredPhrase = true →
      extract_result_data (some p) = .success (.not_registered notRegisteredPhrase)) ∧
    (10 ≤ (pyStrip p).length → hasNeedle p underagePhrase = false →
      hasNeedle p notRegisteredPhrase = false →
      extract_result_data (some p) = .success (.registered (extract_fields p))) ∧
    ((pyStrip p).length < 10 →
      extract_result_data (some p) = .failure emptyPageMsg) ∧
    extract_result_data none = .failure readFailMsg := by
  have hguard : 10 ≤ (pyStrip p).length → ¬ (p = [] ∨ (pyStrip p).length < 10) := by
    intro h10
    rintro (rfl | hlt)
    · simp [pyStrip, List.dropWhile] at h10
    · omega
  refine ⟨?_, ?_, ?_, ?_, rfl⟩
  · intro h10 hU
    simp [extract_result_data, hguard h10, hU]
  · intro h10 hU hN
    simp [extract_result_data, hguard h10, hU, hN]
  · intro h10 hU hN
    simp [extract_result_data, hguard h10, hU, hN]
  · intro hlt
    have : p = [] ∨ (pyStrip p).length < 10 := Or.inr hlt
    simp [extract_result_data, this]

/-- C5 witness: the classification theorem evaluated on an underage page, a
not-registered page, a neutral registered page, and a short page. -/
theorem extract_result_data_classification_witness :
    extract_result_data (some underagePhrase) = .success (.underage underagePhrase) ∧
    extract_result_data (some notRegisteredPhrase)
      = .success (.not_registered notRegisteredPhrase) ∧
    extract_result_data (some ("hello registered page".toList))
      = .success (.registered (extract_fields ("hello registered page".toList))) ∧
    extract_result_data (some ("hi".toList)) = .failure emptyPageMsg :=
  ⟨(extract_result_data_classification underagePhrase).1 (by decide) (by decide),
   (extract_result_data_classification notRegisteredPhrase).2.1
     (by decide) (by decide) (by decide),
   (extract_result_data_classification ("hello registered page".toList)).2.2.1
     (by decide) (by decide) (by decide),
   (extract_result_data_classification ("hi".toList)).2.2.2.1 (by decide)⟩

/-! ## Identifier validation: `validate_national_id` (api.py 208-223) -/

/-- Result of the Pydantic field validator: the accepted value or the raised
error message. -/
inductive VResult where
  | ok (value : List Char)
  | error (msg : List Char)
deriving DecidableEq, Repr

/-- The length-mismatch error message, stating the observed length. -/
def lengthErrMsg (n : Nat) : List Char :=
  "National ID must be exactly 14 digits, got ".toList
    ++ (toString n).toList ++ " characters".toList

/-- The digit-only-constraint error message. -/
def digitErrMsg : List Char := "National ID must contain only digits (0-9)".toList

/-- `validate_national_id`: strip whitespace, reject on length different
from 14 with the observed length, reject when `str.isdigit` fails, and
otherwise return the stripped value. -/
def validate_national_id (s : List Char) : VResult :=
  let v := pyStrip s
  if v.length ≠ 14 then .error (lengthErrMsg v.length)
  else if !pyStrIsdigit v then .error digitErrMsg
  else .ok v

/-- C4 counterexample: a 14-character string of Arabic-Indic digit glyphs
contains no ASCII decimal digit, yet validation accepts it, because Python
`str.isdigit` recognises Unicode digits; the digit-only rejection claimed
for every non-ASCII-digit character does not happen. -/
theorem validate_accepts_arabic_indic_digits_counterexample :
    pyStrip (List.replicate 14 '٣') = List.replicate 14 '٣' ∧
    (List.replicate 14 '٣').length = 14 ∧
    (List.replicate 14 '٣').all Char.isDigit = false ∧
    validate_national_id (List.replicate 14 '٣')
      = .ok (List.replicate 14 '٣') := by
  decide

/-- C4 (amended): validation trims, rejects any input whose trimmed length is
not 14 with a message stating the observed length, rejects 14-character
trimmed inputs containing a character that is not a digit in the sense of
Python `str.isdigit` (which also accepts non-ASCII digit glyphs) citing the
digit-only constraint, and accepts a trimmed string of 14 ASCII digits
unchanged. -/
theorem validate_national_id_spec (s : List Char) :
    ((pyStrip s).length ≠ 14 →
      validate_national_id s = .error (lengthErrMsg (pyStrip s).length) ∧
      hasNeedle (lengthErrMsg (pyStrip s).length)
        ((toString (pyStrip s).length).toList) = true) ∧
    ((pyStrip s).length = 14 → (pyStrip s).all pyIsDigitChar = false →
      validate_national_id s = .error digitErrMsg) ∧
    (pyStrip s = s → s.length = 14 → s.all Char.isDigit = true →
      validate_national_id s = .ok s) := by
  refine ⟨?_, ?_, ?_⟩
  · intro hlen
    refine ⟨by simp [validate_national_id, hlen], ?_⟩
    rw [lengthErrMsg]
    exact hasNeedle_middle _ _ _
  · intro hlen hdig
    have hisd : pyStrIsdigit (pyStrip s) = false := by
      simp [pyStrIsdigit, hdig]
    simp [validate_national_id, hlen, hisd]
  · intro htrim hlen hall
    have hne : (pyStrip s).isEmpty = false := by
      rw [htrim]
      cases s with
      | nil => simp at hlen
      | cons a as => rfl
    have hpy : (pyStrip s).all pyIsDigitChar = true := by
      rw [htrim]
      rw [List.all_eq_true] at hall ⊢
      intro c hc
      simp [pyIsDigitChar, hall c hc]
    have hisd : pyStrIsdigit (pyStrip s) = true := by
      simp only [pyStrIsdigit, hne, hpy]
      rfl
    rw [htrim] at hisd
    simp [validate_national_id, htrim, hlen, hisd]

/-- C4 witness: the validation theorem evaluated on a short input, a
14-character input with a letter, and a proper 14-digit identifier. -/
theorem validate_national_id_spec_witness :
    (validate_national_id ("123".toList) = .error (lengthErrMsg 3) ∧
      hasNeedle (lengthErrMsg 3) ((toString 3).toList) = true) ∧
    validate_national_id ("1234567890123a".toList) = .error digitErrMsg ∧
    validate_national_id ("29710260300314".toList) = .ok ("29710260300314".toList) :=
  ⟨(validate_national_id_spec ("123".toList)).1 (by decide),
   (validate_national_id_spec ("1234567890123a".toList)).2.1 (by decide) (by decide),
   (validate_national_id_spec ("29710260300314".toList)).2.2
     (by decide) (by decide) (by decide)⟩

/-! ## RetryController: `scrape_electoral_data` (selenium_scraper.py 156-285)

Each pass of the retry loop interacts with the external browser driver; the
interaction of one attempt is summarised by an `AttemptEvent`: the first
step that failed (navigation, iframe, input field, submit button), an
unexpected exception, or the successfully read page body handed to
`extract_result_data` (where `none` records a failed body read). -/

/-- Summary of one retry attempt's interaction with the browser driver. -/
inductive AttemptEvent where
  | navError (msg : List Char)
  | frameNotFound
  | inputNotFound
  | submitNotFound
  | unexpectedError (msg : List Char)
  | pageRead (body : Option (List Char))
deriving DecidableEq, Repr

/-- Error recorded when the iframe cannot be located. -/
def frameNotFoundMsg : List Char :=
  "Could not find iframe - page structure may have changed".toList

/-- Error recorded when the national-id input cannot be located. -/
def inputNotFoundMsg : List Char := "Could not find national ID input field".toList

/-- Error recorded when the submit button cannot be located. -/
def submitNotFoundMsg : List Char := "Could not find submit button".toList

/-- The final failure message after exhausting all retries. -/
def failMsg (max_retries : Nat) (lastError : Option (List Char)) : List Char :=
  "Failed after ".toList ++ (toString max_retries).toList
    ++ " attempts. Last error: ".toList
    ++ (match lastError with | some m => m | none => "None".toList)

/-- The retry decision for a failed extraction: retry only when the
lower-cased error message mentions parse or extract. -/
def retryKeyword (err : List Char) : Bool :=
  hasNeedle (lowerL err) ("parse".toList) || hasNeedle (lowerL err) ("extract".toList)

/-- Externally visible result of `scrape_electoral_data`: a success
dictionary, an immediately returned failure dictionary, or the
retries-exhausted failure dictionary. -/
inductive ScrapeOutcome where
  | ok (data : ExtractData)
  | fail (error : List Char)
  | exhausted (error : List Char)
deriving DecidableEq, Repr

/-- Trace of one `scrape_electoral_data` call: its result, the backoff
delays slept in order, and the number of attempts run. -/
structure ScrapeTrace where
  result : ScrapeOutcome
  delays : List Nat
  attemptsRun : Nat
deriving DecidableEq, Repr

/-- Effect of one loop iteration given the attempt's driver interaction:
either continue to the next attempt recording an error message (`inl`), or
terminate the call with a result (`inr`).  Mirrors the loop body: driver
failures set `last_error` and continue; a successful extraction returns; a
failed extraction retries only on the parse/extract keywords and otherwise
returns the failure immediately. -/
def stepOf (e : AttemptEvent) : Sum (List Char) ScrapeOutcome :=
  match e with
  | .navError m => .inl ("Navigation error: ".toList ++ m)
  | .frameNotFound => .inl frameNotFoundMsg
  | .inputNotFound => .inl inputNotFoundMsg
  | .submitNotFound => .inl submitNotFoundMsg
  | .unexpectedError m => .inl m
  | .pageRead body =>
    match extract_result_data body with
    | .success d => .inr (.ok d)
    | .failure err => if retryKeyword err then .inl err else .inr (.fail err)

/-- The retry loop of `scrape_electoral_data`, with the remaining attempt
count as fuel.  Before any attempt after the first, the exponential backoff
delay `retry_delay * 2 ^ (attempt - 1)` (0-indexed attempt) is slept. -/
def goScrape (ev : Nat → AttemptEvent) (max_retries retry_delay : Nat) :
    Nat → Nat → Option (List Char) → ScrapeTrace
  | 0, attempt, lastError =>
    { result := .exhausted (failMsg max_retries lastError)
      delays := []
      attemptsRun := attempt }
  | fuel + 1, attempt, _lastError =>
    let ds : List Nat := if 0 < attempt then [retry_delay * 2 ^ (attempt - 1)] else []
    match stepOf (ev attempt) with
    | .inr r => { result := r, delays := ds, attemptsRun := attempt + 1 }
    | .inl m =>
      let t := goScrape ev max_retries retry_delay fuel (attempt + 1) (some m)
      { t with delays := ds ++ t.delays }

/-- `scrape_electoral_data`: run up to `max_retries` attempts. -/
def scrape_electoral_data (ev : Nat → AttemptEvent) (max_retries retry_delay : Nat) :
    ScrapeTrace :=
  goScrape ev max_retries retry_delay max_retries 0 none

/-- The error message recorded when an attempt fails retryably, `none` when
the attempt terminates the call. -/
def attemptRecordedError (e : AttemptEvent) : Option (List Char) :=
  match stepOf e with
  | .inl m => some m
  | .inr _ => none

/-- Whether an attempt continues the loop instead of terminating the call. -/
def eventContinues (e : AttemptEvent) : Bool := (attemptRecordedError e).isSome

/-- The last error recorded after running `fuel` further attempts starting at
index `attempt`, when every one of them continues. -/
def lastErrAt (ev : Nat → AttemptEvent) (le : Option (List Char)) :
    Nat → Nat → Option (List Char)
  | 0, _ => le
  | f + 1, attempt => attemptRecordedError (ev (attempt + f))

theorem goScrape_zero (ev : Nat → AttemptEvent) (mr rd attempt : Nat)
    (le : Option (List Char)) :
    goScrape ev mr rd 0 attempt le
      = { result := .exhausted (failMsg mr le), delays := [], attemptsRun := attempt } :=
  rfl

theorem goScrape_succ_inr (ev : Nat → AttemptEvent) (mr rd fuel attempt : Nat)
    (le : Option (List Char)) (r : ScrapeOutcome) (h : stepOf (ev attempt) = .inr r) :
    goScrape ev mr rd (fuel + 1) attempt le
      = { result := r
          delays := if 0 < attempt then [rd * 2 ^ (attempt - 1)] else []
          attemptsRun := attempt + 1 } := by
  simp [goScrape, h]

theorem goScrape_succ_inl (ev : Nat → AttemptEvent) (mr rd fuel attempt : Nat)
    (le : Option (List Char)) (m : List Char) (h : stepOf (ev attempt) = .inl m) :
    goScrape ev mr rd (fuel + 1) attempt le
      = { goScrape ev mr rd fuel (attempt + 1) (some m) with
          delays := (if 0 < attempt then [rd * 2 ^ (attempt - 1)] else [])
            ++ (goScrape ev mr rd fuel (attempt + 1) (some m)).delays } := by
  simp [goScrape, h]

theorem goScrape_attemptsRun_ge (ev : Nat → AttemptEvent) (mr rd : Nat) :
    ∀ (fuel attempt : Nat) (le : Option (List Char)),
      attempt ≤ (goScrape ev mr rd fuel attempt le).attemptsRun := by
  intro fuel
  induction fuel with
  | zero =>
    intro attempt le
    rw [goScrape_zero]
  | succ fuel ih =>
    intro attempt le
    cases hstep : stepOf (ev attempt) with
    | inl m =>
      rw [goScrape_succ_inl ev mr rd fuel attempt le m hstep]
      exact Nat.le_of_succ_le (ih (attempt + 1) (some m))
    | inr r =>
      rw [goScrape_succ_inr ev mr rd fuel attempt le r hstep]
      exact Nat.le_succ attempt

theorem goScrape_delays_pos (ev : Nat → AttemptEvent) (mr rd : Nat) :
    ∀ (fuel attempt : Nat) (le : Option (List Char)), 1 ≤ attempt →
      (goScrape ev mr rd fuel attempt le).delays
        = (List.range' attempt
            ((goScrape ev mr rd fuel attempt le).attemptsRun - attempt)).map
            (fun a => rd * 2 ^ (a - 1)) := by
  intro fuel
  induction fuel with
  | zero =>
    intro attempt le _
    rw [goScrape_zero]
    simp
  | succ fuel ih =>
    intro attempt le h1
    have hpos : 0 < attempt := h1
    cases hstep : stepOf (ev attempt) with
    | inr r =>
      rw [goScrape_succ_inr ev mr rd fuel attempt le r hstep]
      show (if 0 < attempt then [rd * 2 ^ (attempt - 1)] else [])
        = (List.range' attempt (attempt + 1 - attempt)).map (fun a => rd * 2 ^ (a - 1))
      rw [if_pos hpos, show attempt + 1 - attempt = 1 from by omega]
      simp [List.range'_succ]
    | inl m =>
      rw [goScrape_succ_inl ev mr rd fuel attempt le m hstep]
      have hge := goScrape_attemptsRun_ge ev mr rd fuel (attempt + 1) (some m)
      show (if 0 < attempt then [rd * 2 ^ (attempt - 1)] else [])
          ++ (goScrape ev mr rd fuel (attempt + 1) (some m)).delays
        = (List.range' attempt
            ((goScrape ev mr rd fuel (attempt + 1) (some m)).attemptsRun - attempt)).map
            (fun a => rd * 2 ^ (a - 1))
      rw [if_pos hpos, ih (attempt + 1) (some m) (by omega)]
      rw [show (goScrape ev mr rd fuel (attempt + 1) (some m)).attemptsRun - attempt
            = ((goScrape ev mr rd fuel (attempt + 1) (some m)).attemptsRun - (attempt + 1)) + 1
          from by omega]
      rw [List.range'_succ]
      simp

theorem goScrape_delays_zero (ev : Nat → AttemptEvent) (mr rd fuel : Nat)
    (le : Option (List Char)) :
    (goScrape ev mr rd fuel 0 le).delays
      = (List.range' 1 ((goScrape ev mr rd fuel 0 le).attemptsRun - 1)).map
          (fun a => rd * 2 ^ (a - 1)) := by
  cases fuel with
  | zero =>
    rw [goScrape_zero]
    simp
  | succ fuel =>
    cases hstep : stepOf (ev 0) with
    | inr r =>
      rw [goScrape_succ_inr ev mr rd fuel 0 le r hstep]
      simp
    | inl m =>
      rw [goScrape_succ_inl ev mr rd fuel 0 le m hstep]
      show [] ++ (goScrape ev mr rd fuel 1 (some m)).delays
        = (List.range' 1 ((goScrape ev mr rd fuel 1 (some m)).attemptsRun - 1)).map
            (fun a => rd * 2 ^ (a - 1))
      rw [List.nil_append]
      exact goScrape_delays_pos ev mr rd fuel 1 (some m) (Nat.le_refl 1)

theorem goScrape_all_continue (ev : Nat → AttemptEvent) (mr rd : Nat) :
    ∀ (fuel attempt : Nat) (le : Option (List Char)),
      (∀ i, attempt ≤ i → i < attempt + fuel → eventContinues (ev i) = true) →
      (goScrape ev mr rd fuel attempt le).result
        = .exhausted (failMsg mr (lastErrAt ev le fuel attempt)) := by
  intro fuel
  induction fuel with
  | zero =>
    intro attempt le _
    rw [goScrape_zero]
    rfl
  | succ fuel ih =>
    intro attempt le h
    have hc : eventContinues (ev attempt) = true :=
      h attempt (Nat.le_refl attempt) (by omega)
    simp only [eventContinues] at hc
    obtain ⟨m, hm⟩ := Option.isSome_iff_exists.mp hc
    have hstep : stepOf (ev attempt) = .inl m := by
      unfold attemptRecordedError at hm
      cases hst : stepOf (ev attempt) with
      | inl m2 =>
        rw [hst] at hm
        cases hm
        rfl
      | inr r =>
        rw [hst] at hm
        cases hm
    rw [goScrape_succ_inl ev mr rd fuel attempt le m hstep]
    show (goScrape ev mr rd fuel (attempt + 1) (some m)).result = _
    rw [ih (attempt + 1) (some m) (fun i hi1 hi2 => h i (by omega) (by omega))]
    congr 2
    cases fuel with
    | zero =>
      show some m = attemptRecordedError (ev (attempt + 0))
      exact hm.symm
    | succ f =>
      show attemptRecordedError (ev (attempt + 1 + f))
        = attemptRecordedError (ev (attempt + (f + 1)))
      rw [show attempt + 1 + f = attempt + (f + 1) from by omega]

theorem hasNeedle_suffix (x m : List Char) : hasNeedle (x ++ m) m = true :=
  hasNeedle_append_left x m m (hasNeedle_of_isPrefOf m m (isPrefOf_refl m))

/-- C1 counterexample: when the first attempt's page read yields the
empty-page failure, the call returns it after a single attempt instead of
recording it and continuing: the loop retries only extraction errors whose
message mentions parse or extract, which the empty-page message does not. -/
theorem empty_page_not_retried_counterexample :
    (scrape_electoral_data
        (fun _ => AttemptEvent.pageRead (some ("hi".toList))) 3 2).attemptsRun = 1 ∧
    (scrape_electoral_data
        (fun _ => AttemptEvent.pageRead (some ("hi".toList))) 3 2).result
      = ScrapeOutcome.fail emptyPageMsg := by
  decide

/-- C1 (amended): an attempt whose page read is classified as the empty-page
failure makes the call return that failure immediately as a non-retried
result, because the retry-decision keywords parse/extract do not occur in
the empty-page message; no further attempt is made. -/
theorem empty_page_failure_returns_immediately (ev : Nat → AttemptEvent)
    (max_retries retry_delay : Nat) (body : Option (List Char))
    (hpos : 0 < max_retries) (hev : ev 0 = .pageRead body)
    (hex : extract_result_data body = .failure emptyPageMsg) :
    retryKeyword emptyPageMsg = false ∧
    (scrape_electoral_data ev max_retries retry_delay).result
      = .fail emptyPageMsg ∧
    (scrape_electoral_data ev max_retries retry_delay).attemptsRun = 1 := by
  obtain ⟨f, rfl⟩ : ∃ f, max_retries = f + 1 := ⟨max_retries - 1, by omega⟩
  have hk : retryKeyword emptyPageMsg = false := by decide
  have hstep : stepOf (ev 0) = .inr (.fail emptyPageMsg) := by
    rw [hev]
    simp [stepOf, hex, hk]
  refine ⟨hk, ?_, ?_⟩
  · rw [scrape_electoral_data, goScrape_succ_inr ev _ retry_delay f 0 none _ hstep]
  · rw [scrape_electoral_data, goScrape_succ_inr ev _ retry_delay f 0 none _ hstep]

/-- C1 witness: the amended theorem evaluated on a driver whose page read is
two characters long. -/
theorem empty_page_failure_returns_immediately_witness :
    retryKeyword emptyPageMsg = false ∧
    (scrape_electoral_data
        (fun _ => AttemptEvent.pageRead (some ("hi".toList))) 3 2).result
      = .fail emptyPageMsg ∧
    (scrape_electoral_data
        (fun _ => AttemptEvent.pageRead (some ("hi".toList))) 3 2).attemptsRun = 1 :=
  empty_page_failure_returns_immediately
    (fun _ => AttemptEvent.pageRead (some ("hi".toList))) 3 2 (some ("hi".toList))
    (by decide) rfl (by decide)

/-- C7: when every attempt completes without a terminal outcome, the call
returns the retries-exhausted failure whose message embeds the last recorded
failure message. -/
theorem retries_exhausted_spec (ev : Nat → AttemptEvent) (max_retries retry_delay : Nat)
    (hpos : 0 < max_retries)
    (hall : ∀ i, i < max_retries → eventContinues (ev i) = true) :
    (scrape_electoral_data ev max_retries retry_delay).result
      = .exhausted (failMsg max_retries (attemptRecordedError (ev (max_retries - 1)))) ∧
    hasNeedle (failMsg max_retries (attemptRecordedError (ev (max_retries - 1))))
      ((attemptRecordedError (ev (max_retries - 1))).getD []) = true := by
  obtain ⟨f, rfl⟩ : ∃ f, max_retries = f + 1 := ⟨max_retries - 1, by omega⟩
  have hc : eventContinues (ev f) = true := hall f (by omega)
  simp only [eventContinues] at hc
  obtain ⟨m, hm⟩ := Option.isSome_iff_exists.mp hc
  constructor
  · rw [scrape_electoral_data,
      goScrape_all_continue ev (f + 1) retry_delay (f + 1) 0 none
        (fun i h0 hlt => hall i (by omega))]
    congr 2
    show attemptRecordedError (ev (0 + f)) = attemptRecordedError (ev (f + 1 - 1))
    rw [Nat.zero_add]
    rfl
  · rw [show f + 1 - 1 = f from rfl, hm]
    show hasNeedle (failMsg (f + 1) (some m)) m = true
    rw [failMsg]
    exact hasNeedle_suffix _ m

/-- C7 witness: a driver that always fails frame location with
maxRetries = 3 exhausts the retries, and the final message references the
frame-location failure. -/
theorem retries_exhausted_spec_witness :
    (scrape_electoral_data (fun _ => AttemptEvent.frameNotFound) 3 2).result
      = .exhausted (failMsg 3 (attemptRecordedError AttemptEvent.frameNotFound)) ∧
    hasNeedle (failMsg 3 (attemptRecordedError AttemptEvent.frameNotFound))
      ((attemptRecordedError AttemptEvent.frameNotFound).getD []) = true :=
  retries_exhausted_spec (fun _ => AttemptEvent.frameNotFound) 3 2
    (by decide) (by decide)

/-- C8: no delay precedes the first attempt and the delay before 1-indexed
attempt n (n greater than 1) is retry_delay * 2 ^ (n - 2); a driver failing
frame location twice and succeeding on the third attempt with maxRetries = 3
runs exactly 3 attempts with delays [retry_delay, 2 * retry_delay]. -/
theorem backoff_delay_spec (ev : Nat → AttemptEvent) (max_retries retry_delay : Nat) :
    (scrape_electoral_data ev max_retries retry_delay).delays
      = (List.range' 1
          ((scrape_electoral_data ev max_retries retry_delay).attemptsRun - 1)).map
          (fun a => retry_delay * 2 ^ (a - 1)) ∧
    (ev 0 = .frameNotFound → ev 1 = .frameNotFound →
      ∀ p d, ev 2 = .pageRead (some p) →
        extract_result_data (some p) = .success d →
        (scrape_electoral_data ev 3 retry_delay).result = .ok d ∧
        (scrape_electoral_data ev 3 retry_delay).attemptsRun = 3 ∧
        (scrape_electoral_data ev 3 retry_delay).delays
          = [retry_delay, retry_delay * 2]) := by
  constructor
  · exact goScrape_delays_zero ev max_retries retry_delay max_retries none
  · intro h0 h1 p d h2 hex
    have s0 : stepOf (ev 0) = .inl frameNotFoundMsg := by rw [h0]; rfl
    have s1 : stepOf (ev 1) = .inl frameNotFoundMsg := by rw [h1]; rfl
    have s2 : stepOf (ev 2) = .inr (.ok d) := by
      rw [h2]
      simp [stepOf, hex]
    rw [scrape_electoral_data,
      goScrape_succ_inl ev 3 retry_delay 2 0 none frameNotFoundMsg s0,
      goScrape_succ_inl ev 3 retry_delay 1 1 (some frameNotFoundMsg)
        frameNotFoundMsg s1,
      goScrape_succ_inr ev 3 retry_delay 0 2 (some frameNotFoundMsg)
        (.ok d) s2]
    refine ⟨rfl, rfl, ?_⟩
    show ([] : List Nat) ++ ([retry_delay * 2 ^ 0] ++ [retry_delay * 2 ^ 1]) = _
    simp [Nat.pow_succ]

/-- C8 witness: the backoff theorem evaluated with base delay 2 on a driver
failing frame location twice and then reading an underage page. -/
theorem backoff_delay_spec_witness :
    (scrape_electoral_data
        (fun n => if n < 2 then AttemptEvent.frameNotFound
          else AttemptEvent.pageRead (some underagePhrase)) 3 2).result
      = .ok (.underage underagePhrase) ∧
    (scrape_electoral_data
        (fun n => if n < 2 then AttemptEvent.frameNotFound
          else AttemptEvent.pageRead (some underagePhrase)) 3 2).attemptsRun = 3 ∧
    (scrape_electoral_data
        (fun n => if n < 2 then AttemptEvent.frameNotFound
          else AttemptEvent.pageRead (some underagePhrase)) 3 2).delays = [2, 2 * 2] :=
  (backoff_delay_spec
      (fun n => if n < 2 then AttemptEvent.frameNotFound
        else AttemptEvent.pageRead (some underagePhrase)) 3 2).2
    rfl rfl underagePhrase (.underage underagePhrase) rfl (by decide)

/-! ## Service boundary: api.py -/

/-- Well-formedness of a Python call that supplies the given keyword
argument names to a function accepting exactly the given parameter names
(none of the functions involved takes **kwargs); an unknown keyword raises
TypeError. -/
def kwargsAccepted (params kwargs : List String) : Bool :=
  kwargs.all (fun k => params.contains k)

/-- Keyword-assignable parameters of `FreeElectionsScraper.__init__`
besides `self` (selenium_scraper.py 47). -/
def scraper_init_params : List String := ["headless", "max_retries", "retry_delay"]

/-- Keyword arguments passed by the `lifespan` startup hook when it
constructs the scraper (api.py 77-82). -/
def lifespan_init_kwargs : List String :=
  ["headless", "max_retries", "retry_delay", "session_timeout"]

/-- Parameters of `FreeElectionsScraper.scrape_electoral_data` besides
`self` (selenium_scraper.py 156). -/
def scrape_method_params : List String := ["national_id"]

/-- Keyword arguments of the invocation
`scraper.scrape_electoral_data(national_id, timeout=30)` in
`lookup_national_id` (api.py 452). -/
def lookup_scrape_kwargs : List String := ["timeout"]

/-- `lifespan` startup (api.py 70-89): construct the scraper inside a
try/except that leaves the global scraper `None` when construction raises. -/
def lifespan_scraper : Option Unit :=
  if kwargsAccepted scraper_init_params lifespan_init_kwargs then some () else none

/-- The 503 detail message of `lookup_national_id` when the scraper is not
initialised (api.py 442). -/
def serviceUnavailableMsg : List Char :=
  "Scraper service is not available. Please try again later.".toList

/-- Entry decision of `lookup_national_id` (api.py 438-443). -/
inductive LookupStart where
  | unavailable (statusCode : Nat) (detail : List Char)
  | proceed (national_id : List Char)
deriving DecidableEq, Repr

/-- The guard at the top of `lookup_national_id`: reject with 503 when the
global scraper is `None`, otherwise proceed into the pipeline. -/
def lookup_guard (s : Option Unit) (national_id : List Char) : LookupStart :=
  match s with
  | none => .unavailable 503 serviceUnavailableMsg
  | some _ => .proceed national_id

/-- C3: startup passes session_timeout=300 to a constructor accepting only
headless, max_retries and retry_delay, so initialisation raises TypeError on
every startup, the global scraper stays None, and every lookup request is
rejected with the 503 service-unavailable error instead of reaching the
pipeline. -/
theorem lifespan_type_error_disables_lookup (national_id : List Char) :
    scraper_init_params.contains ("session_timeout") = false ∧
    kwargsAccepted scraper_init_params lifespan_init_kwargs = false ∧
    lifespan_scraper = none ∧
    lookup_guard lifespan_scraper national_id
      = .unavailable 503 serviceUnavailableMsg :=
  ⟨by decide, by decide, rfl, rfl⟩

/-- Kinds of Python exception distinguished by the lookup handler's except
chain. -/
inductive PyExnKind where
  | typeError
  | valueError
  | timeoutError
  | connectionError
  | otherError
deriving DecidableEq, Repr

/-- The scrape invocation in `lookup_national_id` (api.py 452): Python
raises TypeError when a supplied keyword is not accepted by the callee. -/
def call_scrape_from_lookup : Except PyExnKind Unit :=
  if kwargsAccepted scrape_method_params lookup_scrape_kwargs then .ok ()
  else .error .typeError

/-- Classification assigned by the handler's except chain (api.py 581-638):
ValueError, TimeoutError, ConnectionError, then the catch-all
unexpected-server-error handler. -/
inductive LookupErrorClass where
  | validation
  | timeout
  | connection
  | unexpected
deriving DecidableEq, Repr

/-- Dispatch of a raised exception through the except chain of
`lookup_national_id`. -/
def classify_lookup_exception : PyExnKind → LookupErrorClass
  | .valueError => .validation
  | .timeoutError => .timeout
  | .connectionError => .connection
  | _ => .unexpected

/-- C2 counterexample: the service boundary's invocation of the scraper with
a timeout keyword is not a well-formed call of the scrape operation, whose
only parameter besides self is national_id. -/
theorem timeout_call_not_well_formed_counterexample :
    kwargsAccepted scrape_method_params lookup_scrape_kwargs = false ∧
    scrape_method_params.contains ("timeout") = false := by
  decide

/-- C2 (amended): the scrape operation accepts no timeout parameter, so the
invocation passing timeout=30 raises TypeError, which the handler's
catch-all classifies as an unexpected server error, not as a timeout (a
TimeoutError would be the timeout classification). -/
theorem timeout_kwarg_rejected_and_classified_unexpected :
    scrape_method_params = ["national_id"] ∧
    kwargsAccepted scrape_method_params lookup_scrape_kwargs = false ∧
    call_scrape_from_lookup = .error .typeError ∧
    classify_lookup_exception .typeError = .unexpected ∧
    classify_lookup_exception .timeoutError = .timeout :=
  ⟨rfl, by decide, rfl, rfl, rfl⟩

/-! ## DistrictFilter: the registered-status branch of `lookup_national_id`
(api.py 472-513) -/

/-- The configured district allow-list (api.py 30-36). -/
def ALLOWED_DISTRICTS : List (List Char) :=
  ["قسم الشرق".toList, "قسم العرب".toList, "قسم الضواحى".toList,
   "قسم أول بورفؤاد".toList, "قسم ثان بورفؤاد".toList]

/-- The out-of-district notice message (api.py 483). -/
def outOfDistrictMsg : List Char :=
  "الناخب مسجل في دائرة خارج النطاق المستهدف".toList

/-- Payload of the out-of-district response (api.py 250-257 and 482-488):
message, reason, district, electoral center and address; the subcommittee
and electoral-list numbers have no field here. -/
structure OutOfDistrictData where
  message : List Char
  reason : List Char
  district : List Char
  electoral_center : List Char
  address : List Char
deriving DecidableEq, Repr

/-- Responses produced by the registered-status branch of
`lookup_national_id`. -/
inductive LookupResponse where
  | registered (national_id : List Char) (data : VoterRecord)
  | outOfDistrict (national_id : List Char) (data : OutOfDistrictData)
deriving DecidableEq, Repr

/-- The district filter inside `lookup_national_id`: a nonempty district
outside the allow-list yields the partial-redaction out-of-district notice,
otherwise the full record is returned as a registered response. -/
def handleRegisteredData (national_id : List Char) (data : VoterRecord) :
    LookupResponse :=
  if data.district ≠ [] ∧ data.district ∉ ALLOWED_DISTRICTS then
    .outOfDistrict national_id
      { message := outOfDistrictMsg
        reason := "out_of_district".toList
        district := data.district
        electoral_center := data.electoral_center
        address := data.address }
  else
    .registered national_id
      { electoral_center := data.electoral_center
        district := data.district
        address := data.address
        subcommittee_number := data.subcommittee_number
        electoral_list_number := data.electoral_list_number }

/-- C6: a registered record with a nonempty district outside the allow-list
becomes an out-of-district notice retaining the district, electoral center
and address while omitting the subcommittee and electoral-list numbers; a
record whose district is empty or allowed passes through unchanged. -/
theorem district_filter_spec (national_id : List Char) (data : VoterRecord) :
    (data.district ≠ [] → data.district ∉ ALLOWED_DISTRICTS →
      handleRegisteredData national_id data
        = .outOfDistrict national_id
            { message := outOfDistrictMsg
              reason := "out_of_district".toList
              district := data.district
              electoral_center := data.electoral_center
              address := data.address }) ∧
    (data.district = [] ∨ data.district ∈ ALLOWED_DISTRICTS →
      handleRegisteredData national_id data = .registered national_id data) := by
  constructor
  · intro h1 h2
    simp [handleRegisteredData, h1, h2]
  · intro h
    have hn : ¬ (data.district ≠ [] ∧ data.district ∉ ALLOWED_DISTRICTS) := by
      rcases h with h | h
      · simp [h]
      · simp [h]
    rw [handleRegisteredData, if_neg hn]

/-- C6 witness: the district filter evaluated on a record in an unlisted
district and on a record in an allowed district. -/
theorem district_filter_spec_witness :
    handleRegisteredData ("29710260300314".toList)
        { electoral_center := "c".toList
          district := "قسم الزهور".toList
          address := "a".toList
          subcommittee_number := "20".toList
          electoral_list_number := "7881".toList }
      = .outOfDistrict ("29710260300314".toList)
          { message := outOfDistrictMsg
            reason := "out_of_district".toList
            district := "قسم الزهور".toList
            electoral_center := "c".toList
            address := "a".toList } ∧
    handleRegisteredData ("29710260300314".toList)
        { electoral_center := "c".toList
          district := "قسم الشرق".toList
          address := "a".toList
          subcommittee_number := "20".toList
          electoral_list_number := "7881".toList }
      = .registered ("29710260300314".toList)
          { electoral_center := "c".toList
            district := "قسم الشرق".toList
            address := "a".toList
            subcommittee_number := "20".toList
            electoral_list_number := "7881".toList } :=
  ⟨(district_filter_spec ("29710260300314".toList) _).1 (by decide) (by decide),
   (district_filter_spec ("29710260300314".toList) _).2 (Or.inr (by decide))⟩

/-! ## AccessGate: `check_rate_limit` and the rate-limiting middleware
(api.py 39-63 and 112-131).  Timestamps are modelled as rationals. -/

/-- Maximum requests per window (api.py 61). -/
def RATE_LIMIT_REQUESTS : Nat := 1000

/-- Window length in seconds (api.py 62). -/
def RATE_LIMIT_WINDOW : ℚ := 60

/-- Prune one client's stored timestamps, keeping those strictly newer than
now minus the window. -/
def pruneStore (now : ℚ) (store : List ℚ) : List ℚ :=
  store.filter (fun t => now - RATE_LIMIT_WINDOW < t)

/-- `check_rate_limit` acting on one client's stored timestamps: prune,
then admit and record `now` exactly when the pruned count is below the
quota. -/
def check_rate_limit (now : ℚ) (store : List ℚ) : Bool × List ℚ :=
  let pruned := pruneStore now store
  if pruned.length < RATE_LIMIT_REQUESTS then (true, pruned ++ [now]) else (false, pruned)

/-- The admission decisions for a sequence of checks from one client,
threading the stored timestamps. -/
def runRateChecks : List ℚ → List ℚ → List Bool
  | [], _ => []
  | t :: rest, store =>
    (check_rate_limit t store).1 :: runRateChecks rest (check_rate_limit t store).2

/-- The 429 response body returned by the middleware on rejection
(api.py 120-128). -/
structure RateLimitedResponse where
  statusCode : Nat
  error : List Char
  retry_after : ℚ
deriving DecidableEq, Repr

/-- The middleware's rejection response: HTTP 429 with a retry_after hint
equal to the window length. -/
def rateLimitedResponse : RateLimitedResponse :=
  { statusCode := 429
    error :=
      "Rate limit exceeded. Maximum 1000 requests per 60 seconds allowed.".toList
    retry_after := RATE_LIMIT_WINDOW }

theorem pruneStore_eq_self (now : ℚ) (store : List ℚ)
    (h : ∀ t ∈ store, now - RATE_LIMIT_WINDOW < t) : pruneStore now store = store :=
  List.filter_eq_self.mpr (fun a ha => decide_eq_true (h a ha))

theorem runRateChecks_within_window :
    ∀ (times store : List ℚ),
      (∀ t ∈ store, ∀ u ∈ times, u - RATE_LIMIT_WINDOW < t) →
      times.Pairwise (fun a b => b - a < RATE_LIMIT_WINDOW) →
      runRateChecks times store
        = (List.range times.length).map
            (fun k => decide (store.length + k < RATE_LIMIT_REQUESTS))
  | [], _, _, _ => rfl
  | t :: rest, store, hs, hp => by
    have hprune : pruneStore t store = store :=
      pruneStore_eq_self t store (fun x hx => hs x hx t (List.mem_cons_self t rest))
    rw [List.pairwise_cons] at hp
    by_cases hlt : store.length < RATE_LIMIT_REQUESTS
    · have hcheck : check_rate_limit t store = (true, store ++ [t]) := by
        simp [check_rate_limit, hprune, hlt]
      have hs2 : ∀ x ∈ store ++ [t], ∀ u ∈ rest, u - RATE_LIMIT_WINDOW < x := by
        intro x hx u hu
        rcases List.mem_append.mp hx with hx | hx
        · exact hs x hx u (List.mem_cons_of_mem t hu)
        · rcases List.mem_singleton.mp hx with rfl
          have := hp.1 u hu
          linarith
      calc runRateChecks (t :: rest) store
          = true :: runRateChecks rest (store ++ [t]) := by
            simp [runRateChecks, hcheck]
        _ = true :: (List.range rest.length).map
              (fun k => decide ((store ++ [t]).length + k < RATE_LIMIT_REQUESTS)) := by
            rw [runRateChecks_within_window rest (store ++ [t]) hs2 hp.2]
        _ = true :: (List.range rest.length).map
              (fun k => decide (store.length + (k + 1) < RATE_LIMIT_REQUESTS)) := by
            refine congrArg _ (List.map_congr_left ?_)
            intro k _
            rw [decide_eq_decide]
            simp only [List.length_append, List.length_singleton]
            omega
        _ = (List.range (rest.length + 1)).map
              (fun k => decide (store.length + k < RATE_LIMIT_REQUESTS)) := by
            rw [List.range_succ_eq_map, List.map_cons, List.map_map]
            have hhead : decide (store.length + 0 < RATE_LIMIT_REQUESTS) = true := by
              rw [Nat.add_zero]
              exact decide_eq_true hlt
            rw [hhead]
            refine congrArg _ (List.map_congr_left ?_)
            intro k _
            rfl
    · have hcheck : check_rate_limit t store = (false, store) := by
        simp [check_rate_limit, hprune, hlt]
      have hs2 : ∀ x ∈ store, ∀ u ∈ rest, u - RATE_LIMIT_WINDOW < x :=
        fun x hx u hu => hs x hx u (List.mem_cons_of_mem t hu)
      calc runRateChecks (t :: rest) store
          = false :: runRateChecks rest store := by
            simp [runRateChecks, hcheck]
        _ = false :: (List.range rest.length).map
              (fun k => decide (store.length + k < RATE_LIMIT_REQUESTS)) := by
            rw [runRateChecks_within_window rest store hs2 hp.2]
        _ = (List.range (rest.length + 1)).map
              (fun k => decide (store.length + k < RATE_LIMIT_REQUESTS)) := by
            rw [List.range_succ_eq_map, List.map_cons, List.map_map]
            have hhead : decide (store.length + 0 < RATE_LIMIT_REQUESTS) = false := by
              rw [Nat.add_zero]
              exact decide_eq_false hlt
            rw [hhead]
            refine congrArg _ (List.map_congr_left ?_)
            intro k _
            show decide (store.length + k < RATE_LIMIT_REQUESTS)
              = decide (store.length + (k + 1) < RATE_LIMIT_REQUESTS)
            rw [decide_eq_decide]
            omega

theorem range_map_decide_lt (n : Nat) :
    (List.range (n + 1)).map (fun k => decide (k < n))
      = List.replicate n true ++ [false] := by
  induction n with
  | zero => rfl
  | succ n ih =>
    rw [List.range_succ_eq_map, List.map_cons, List.map_map]
    have h1 : ((fun k => decide (k < n + 1)) ∘ Nat.succ) = (fun k => decide (k < n)) := by
      funext k
      simp only [Function.comp]
      rw [decide_eq_decide]
      omega
    rw [h1, ih]
    simp [List.replicate_succ]

/-- C9: quota+1 admission checks from one client whose timestamps all fall
within one sliding window admit exactly the quota and reject the last one;
the middleware's rejection response carries retry_after equal to the window
length, each check first prunes the stored timestamps older than now minus
the window, and the current time is recorded only on admission. -/
theorem rate_limit_quota_spec (times : List ℚ)
    (hlen : times.length = RATE_LIMIT_REQUESTS + 1)
    (hp : times.Pairwise (fun a b => b - a < RATE_LIMIT_WINDOW)) :
    runRateChecks times [] = List.replicate RATE_LIMIT_REQUESTS true ++ [false] ∧
    rateLimitedResponse.retry_after = RATE_LIMIT_WINDOW ∧
    (∀ (now : ℚ) (store : List ℚ), (check_rate_limit now store).1 = false →
      (check_rate_limit now store).2 = pruneStore now store) ∧
    (∀ (now : ℚ) (store : List ℚ), (check_rate_limit now store).1 = true →
      (check_rate_limit now store).2 = pruneStore now store ++ [now]) := by
  refine ⟨?_, rfl, ?_, ?_⟩
  · rw [runRateChecks_within_window times [] (fun t ht => nomatch ht) hp, hlen]
    have h0 : (fun k => decide (([] : List ℚ).length + k < RATE_LIMIT_REQUESTS))
        = (fun k => decide (k < RATE_LIMIT_REQUESTS)) := by
      funext k
      simp
    rw [h0]
    exact range_map_decide_lt RATE_LIMIT_REQUESTS
  · intro now store h
    by_cases hlt : (pruneStore now store).length < RATE_LIMIT_REQUESTS
    · simp [check_rate_limit, hlt] at h
    · simp [check_rate_limit, hlt]
  · intro now store h
    by_cases hlt : (pruneStore now store).length < RATE_LIMIT_REQUESTS
    · simp [check_rate_limit, hlt]
    · simp [check_rate_limit, hlt] at h

theorem pairwise_replicate_self {α : Type} (r : α → α → Prop) (a : α) (h : r a a) :
    ∀ n, (List.replicate n a).Pairwise r := by
  intro n
  induction n with
  | zero => simp
  | succ n ih =>
    rw [List.replicate_succ]
    refine List.Pairwise.cons ?_ ih
    intro b hb
    rw [List.eq_of_mem_replicate hb]
    exact h

/-- C9 witness: 1001 simultaneous checks from one client admit the first
1000 and reject the last. -/
theorem rate_limit_quota_spec_witness :
    runRateChecks (List.replicate (RATE_LIMIT_REQUESTS + 1) (0 : ℚ)) []
      = List.replicate RATE_LIMIT_REQUESTS true ++ [false] :=
  (rate_limit_quota_spec (List.replicate (RATE_LIMIT_REQUESTS + 1) (0 : ℚ))
    (by simp)
    (pairwise_replicate_self _ (0 : ℚ) (by norm_num [RATE_LIMIT_WINDOW])
      (RATE_LIMIT_REQUESTS + 1))).1

end EgyptVoterApi
